import Mathlib

/-!
Verification of the ArenaX match-authority plane and on-chain governance core.

Shallow embedding of:
* `src/backend/src/models/match_authority.rs` (match FSM),
* `src/backend/src/service/match_authority_service.rs` (match authority service),
* `src/contracts/governance_multisig/src/{lib,storage,types,error}.rs`,
* `src/contracts/slashing_contract/src/lib.rs`.

Machine integers (`u32`, `u64`) are modelled as `Nat`; none of the verified
paths exercise overflow.  Addresses, 32-byte ids and symbols are modelled as
`Nat` / `String`.  Contract entry points return `Except e State`: a Soroban
error return aborts the invocation and rolls every storage write back, and in
the embedded functions every error path occurs before the first write, so an
error result leaves the state unchanged by construction.
-/

namespace ArenaX

/-! ## Match FSM — `src/backend/src/models/match_authority.rs` -/

/-- The match authority FSM states (`MatchAuthorityState`). -/
inductive MatchAuthorityState where
  | Created
  | Started
  | Completed
  | Disputed
  | Finalized
deriving DecidableEq, Fintype

/-- `MatchAuthorityState::can_transition_to` (match_authority.rs lines 21-37):
the listed edges, then a catch-all `(a, b) if a == b` self-loop, then `false`. -/
def MatchAuthorityState.can_transition_to :
    MatchAuthorityState → MatchAuthorityState → Bool
  | .Created, .Started => true
  | .Started, .Completed => true
  | .Completed, .Disputed => true
  | .Completed, .Finalized => true
  | .Disputed, .Finalized => true
  | a, b => a == b

/-- `MatchAuthorityState::valid_next_states` (lines 40-51). -/
def MatchAuthorityState.valid_next_states :
    MatchAuthorityState → List MatchAuthorityState
  | .Created => [.Started]
  | .Started => [.Completed]
  | .Completed => [.Disputed, .Finalized]
  | .Disputed => [.Finalized]
  | .Finalized => []

/-- `MatchAuthorityState::is_terminal` (lines 54-56). -/
def MatchAuthorityState.is_terminal : MatchAuthorityState → Bool
  | .Finalized => true
  | _ => false

/-! ## Match Authority Service — `src/backend/src/service/match_authority_service.rs`

The service is embedded as explicit state passing over a `BackendWorld`
holding the database tables and the list of chain invocations issued so far.
The Soroban gateway (`SorobanService::invoke`) is an external collaborator
and is modelled as an oracle `ChainCall → Except String String` returning the
transaction hash; each invocation is also recorded in `chain_calls` at the
moment it is issued, so "no chain call was made" is visible in the state.
Every operation returns the pair (result, updated world); a returned error
does not by itself roll the world back (matching the service, which has no
transaction wrapping the chain call). -/

/-- `CreateMatchDTO` (match_authority.rs lines 137-144); the `#[validate]`
attributes require both player strings to be exactly 56 characters. -/
structure CreateMatchDTO where
  player_a : String
  player_b : String
  idempotency_key : Option String
deriving DecidableEq

/-- `CompleteMatchDTO` (lines 147-151): winner must be 56 characters. -/
structure CompleteMatchDTO where
  winner : String
deriving DecidableEq

/-- `MatchAuthorityEntity` (lines 61-74).  `metadata` is constant in the
verified paths and omitted; timestamps are `Nat` (`NOW()` is the world
clock). -/
structure MatchAuthorityEntity where
  id : Nat
  on_chain_match_id : String
  player_a : String
  player_b : String
  winner : Option String
  state : MatchAuthorityState
  created_at : Nat
  started_at : Option Nat
  ended_at : Option Nat
  last_chain_tx : Option String
  idempotency_key : Option String
deriving DecidableEq

/-- A `match_transitions` row (`MatchTransition`, lines 78-88). -/
structure MatchTransitionRow where
  match_id : Nat
  from_state : MatchAuthorityState
  to_state : MatchAuthorityState
  actor : String
  chain_tx : Option String
deriving DecidableEq

/-- A `match_chain_sync` row (`MatchChainSync`, lines 92-104). -/
structure ChainSyncRow where
  match_id : Nat
  operation_type : String
  tx_hash : String
  tx_status : String
  error_message : Option String
deriving DecidableEq

/-- A `match_reconciliation_log` row (`MatchReconciliationLog`, lines 108-118). -/
structure ReconLogRow where
  match_id : Nat
  off_chain_state : MatchAuthorityState
  on_chain_state : String
  is_divergent : Bool
deriving DecidableEq

/-- One invocation issued through `SorobanService::invoke`:
contract id, function name and the JSON argument object (as key/value pairs,
in the order the service builds them). -/
structure ChainCall where
  contract : String
  function : String
  call_args : List (String × String)
deriving DecidableEq

/-- The flat error type standing for `ApiError`. -/
inductive ApiErr where
  | badRequest (msg : String)
  | notFound (msg : String)
  | forbidden (msg : String)
  | internalError (msg : String)
deriving DecidableEq

/-- The durable store plus the record of issued chain calls.
`match_lifecycle_contract` is the service's configured contract id and
`next_id` stands for the fresh `Uuid::new_v4()`. -/
structure BackendWorld where
  match_authority : List MatchAuthorityEntity
  transitions : List MatchTransitionRow
  chain_sync : List ChainSyncRow
  recon_log : List ReconLogRow
  chain_calls : List ChainCall
  match_lifecycle_contract : String
  next_id : Nat
  now : Nat
deriving DecidableEq

/-- The chain gateway oracle: result of `SorobanService::invoke` for a given
call (`.ok hash` or `.error msg`). -/
def ChainOracle := ChainCall → Except String String

/-- `get_match_entity` (service lines 453-474): `fetch_optional` by id. -/
def get_match_entity (σ : BackendWorld) (match_id : Nat) :
    Option MatchAuthorityEntity :=
  σ.match_authority.find? (fun m => m.id = match_id)

/-- `get_match_transitions` (lines 492-513): rows for the match, in insertion
order (the embedding keeps `transitions` append-only, matching the
`ORDER BY timestamp ASC`). -/
def get_match_transitions (σ : BackendWorld) (match_id : Nat) :
    List MatchTransitionRow :=
  σ.transitions.filter (fun t => t.match_id = match_id)

/-- `get_match_by_idempotency_key` (lines 516-536). -/
def get_match_by_idempotency_key (σ : BackendWorld) (key : String) :
    Option MatchAuthorityEntity :=
  σ.match_authority.find? (fun m => m.idempotency_key = some key)

/-- `get_match_with_transitions` (lines 477-489). -/
def get_match_with_transitions (σ : BackendWorld) (match_id : Nat) :
    Except ApiErr (MatchAuthorityEntity × List MatchTransitionRow) :=
  match get_match_entity σ match_id with
  | none => .error (.notFound "Match not found")
  | some e => .ok (e, get_match_transitions σ match_id)

/-- `record_transition` (lines 622-652). -/
def record_transition (σ : BackendWorld) (match_id : Nat)
    (from_st to_st : MatchAuthorityState) (actor : String)
    (chain_tx : Option String) : BackendWorld :=
  { σ with transitions :=
      σ.transitions ++ [⟨match_id, from_st, to_st, actor, chain_tx⟩] }

/-- `record_chain_sync` (lines 655-684). -/
def record_chain_sync (σ : BackendWorld) (match_id : Nat)
    (operation_type tx_hash status : String) (err : Option String) :
    BackendWorld :=
  { σ with chain_sync :=
      σ.chain_sync ++ [⟨match_id, operation_type, tx_hash, status, err⟩] }

/-- `validate_transition` (lines 607-619): pure FSM check. -/
def validate_transition (from_st to_st : MatchAuthorityState) :
    Except ApiErr Unit :=
  if from_st.can_transition_to to_st then .ok ()
  else .error (.badRequest "Invalid state transition")

/-- Issue a chain invocation: record it, then consult the oracle. -/
def invoke_chain (chain : ChainOracle) (σ : BackendWorld) (c : ChainCall) :
    Except String String × BackendWorld :=
  (chain c, { σ with chain_calls := σ.chain_calls ++ [c] })

/-- The call built by `create_match_on_chain` (lines 691-710). -/
def create_match_call (σ : BackendWorld) (dto : CreateMatchDTO) : ChainCall :=
  ⟨σ.match_lifecycle_contract, "create_match",
    [("player_a", dto.player_a), ("player_b", dto.player_b)]⟩

/-- `create_match` (lines 39-132).  Order as in the source: DTO validation,
idempotency lookup, chain call, insert row (state `CREATED`,
`on_chain_match_id` and `last_chain_tx` both the returned hash), chain-sync
row, transition row (`Created → Created`, actor `player_a`).  Note the
source performs no distinct-player and no ban check. -/
def create_match (chain : ChainOracle) (dto : CreateMatchDTO)
    (σ : BackendWorld) :
    Except ApiErr (MatchAuthorityEntity × List MatchTransitionRow) ×
      BackendWorld :=
  if ¬ (dto.player_a.length = 56 ∧ dto.player_b.length = 56) then
    (.error (.badRequest "Validation error"), σ)
  else
    match dto.idempotency_key.bind (get_match_by_idempotency_key σ) with
    | some existing => (get_match_with_transitions σ existing.id, σ)
    | none =>
      let (res, σ₁) := invoke_chain chain σ (create_match_call σ dto)
      match res with
      | .error _ => (.error (.internalError "Blockchain creation failed"), σ₁)
      | .ok hash =>
        let m : MatchAuthorityEntity :=
          { id := σ₁.next_id
            on_chain_match_id := hash
            player_a := dto.player_a
            player_b := dto.player_b
            winner := none
            state := .Created
            created_at := σ₁.now
            started_at := none
            ended_at := none
            last_chain_tx := some hash
            idempotency_key := dto.idempotency_key }
        let σ₂ := { σ₁ with match_authority := σ₁.match_authority ++ [m],
                            next_id := σ₁.next_id + 1 }
        let σ₃ := record_chain_sync σ₂ m.id "create_match" hash "pending" none
        let σ₄ := record_transition σ₃ m.id .Created .Created dto.player_a
                    (some hash)
        (get_match_with_transitions σ₄ m.id, σ₄)

/-- Update the row of a given match id in place (the `UPDATE ... WHERE id`
statements). -/
def update_match (σ : BackendWorld) (match_id : Nat)
    (f : MatchAuthorityEntity → MatchAuthorityEntity) : BackendWorld :=
  { σ with match_authority := σ.match_authority.map (fun m => if m.id = match_id then f m else m) }

/-- `start_match` (lines 139-199): load, FSM-validate `→ Started`, chain
call, update row (`started_at := NOW()`), chain-sync row, transition row
(actor `"system"`). -/
def start_match (chain : ChainOracle) (match_id : Nat) (σ : BackendWorld) :
    Except ApiErr (MatchAuthorityEntity × List MatchTransitionRow) ×
      BackendWorld :=
  match get_match_entity σ match_id with
  | none => (.error (.notFound "Match not found"), σ)
  | some m =>
    match validate_transition m.state .Started with
    | .error e => (.error e, σ)
    | .ok _ =>
      let call : ChainCall :=
        ⟨σ.match_lifecycle_contract, "start_match",
          [("match_id", m.on_chain_match_id)]⟩
      let (res, σ₁) := invoke_chain chain σ call
      match res with
      | .error _ => (.error (.internalError "Blockchain start failed"), σ₁)
      | .ok hash =>
        let σ₂ := update_match σ₁ match_id (fun x =>
          { x with state := .Started, last_chain_tx := some hash,
                   started_at := some σ₁.now })
        let σ₃ := record_chain_sync σ₂ match_id "start_match" hash "pending" none
        let σ₄ := record_transition σ₃ match_id m.state .Started "system"
                    (some hash)
        (get_match_with_transitions σ₄ match_id, σ₄)

/-- `complete_match` (lines 206-286): DTO validation (56-char winner), load,
FSM-validate `→ Completed`, winner-in-players check, chain call, update row
(winner, `ended_at`), chain-sync row, transition row (actor = winner). -/
def complete_match (chain : ChainOracle) (match_id : Nat)
    (dto : CompleteMatchDTO) (σ : BackendWorld) :
    Except ApiErr (MatchAuthorityEntity × List MatchTransitionRow) ×
      BackendWorld :=
  if ¬ dto.winner.length = 56 then
    (.error (.badRequest "Validation error"), σ)
  else
    match get_match_entity σ match_id with
    | none => (.error (.notFound "Match not found"), σ)
    | some m =>
      match validate_transition m.state .Completed with
      | .error e => (.error e, σ)
      | .ok _ =>
        if dto.winner ≠ m.player_a ∧ dto.winner ≠ m.player_b then
          (.error (.badRequest "Winner must be one of the match players"), σ)
        else
          let call : ChainCall :=
            ⟨σ.match_lifecycle_contract, "complete_match",
              [("match_id", m.on_chain_match_id), ("winner", dto.winner)]⟩
          let (res, σ₁) := invoke_chain chain σ call
          match res with
          | .error _ =>
            (.error (.internalError "Blockchain completion failed"), σ₁)
          | .ok hash =>
            let σ₂ := update_match σ₁ match_id (fun x =>
              { x with state := .Completed, winner := some dto.winner,
                       last_chain_tx := some hash, ended_at := some σ₁.now })
            let σ₃ := record_chain_sync σ₂ match_id "complete_match" hash
                        "pending" none
            let σ₄ := record_transition σ₃ match_id m.state .Completed
                        dto.winner (some hash)
            (get_match_with_transitions σ₄ match_id, σ₄)

/-- `raise_dispute` (lines 293-365): load, FSM-validate `→ Disputed`,
actor-in-players check (403 otherwise), chain call, update, rows. -/
def raise_dispute (chain : ChainOracle) (match_id : Nat) (actor : String)
    (σ : BackendWorld) :
    Except ApiErr (MatchAuthorityEntity × List MatchTransitionRow) ×
      BackendWorld :=
  match get_match_entity σ match_id with
  | none => (.error (.notFound "Match not found"), σ)
  | some m =>
    match validate_transition m.state .Disputed with
    | .error e => (.error e, σ)
    | .ok _ =>
      if actor ≠ m.player_a ∧ actor ≠ m.player_b then
        (.error (.forbidden "Only match players can raise disputes"), σ)
      else
        let call : ChainCall :=
          ⟨σ.match_lifecycle_contract, "raise_dispute",
            [("match_id", m.on_chain_match_id), ("disputer", actor)]⟩
        let (res, σ₁) := invoke_chain chain σ call
        match res with
        | .error _ => (.error (.internalError "Blockchain dispute failed"), σ₁)
        | .ok hash =>
          let σ₂ := update_match σ₁ match_id (fun x =>
            { x with state := .Disputed, last_chain_tx := some hash })
          let σ₃ := record_chain_sync σ₂ match_id "raise_dispute" hash
                      "pending" none
          let σ₄ := record_transition σ₃ match_id m.state .Disputed actor
                      (some hash)
          (get_match_with_transitions σ₄ match_id, σ₄)

/-- `finalize_match` (lines 373-438). -/
def finalize_match (chain : ChainOracle) (match_id : Nat) (σ : BackendWorld) :
    Except ApiErr (MatchAuthorityEntity × List MatchTransitionRow) ×
      BackendWorld :=
  match get_match_entity σ match_id with
  | none => (.error (.notFound "Match not found"), σ)
  | some m =>
    match validate_transition m.state .Finalized with
    | .error e => (.error e, σ)
    | .ok _ =>
      let call : ChainCall :=
        ⟨σ.match_lifecycle_contract, "finalize_match",
          [("match_id", m.on_chain_match_id)]⟩
      let (res, σ₁) := invoke_chain chain σ call
      match res with
      | .error _ =>
        (.error (.internalError "Blockchain finalization failed"), σ₁)
      | .ok hash =>
        let σ₂ := update_match σ₁ match_id (fun x =>
          { x with state := .Finalized, last_chain_tx := some hash })
        let σ₃ := record_chain_sync σ₂ match_id "finalize_match" hash
                    "pending" none
        let σ₄ := record_transition σ₃ match_id m.state .Finalized "system"
                    (some hash)
        (get_match_with_transitions σ₄ match_id, σ₄)

/-- The `format!("{:?}", state)` rendering used by `reconcile_match`
(Rust `Debug` derive prints the plain variant name, not the
SCREAMING_SNAKE_CASE serde rename). -/
def debugStr : MatchAuthorityState → String
  | .Created => "Created"
  | .Started => "Started"
  | .Completed => "Completed"
  | .Disputed => "Disputed"
  | .Finalized => "Finalized"

/-- Partial inverse of the on-chain state string, used only to state claims
about what a fetched string denotes. -/
def parseState (s : String) : Option MatchAuthorityState :=
  if s = "Created" then some .Created
  else if s = "Started" then some .Started
  else if s = "Completed" then some .Completed
  else if s = "Disputed" then some .Disputed
  else if s = "Finalized" then some .Finalized
  else none

/-- `get_match_state_from_chain` (lines 801-817): the source is an explicit
placeholder for the chain read and always returns `"CREATED"`. -/
def get_match_state_from_chain (_on_chain_match_id : String) : String :=
  "CREATED"

/-- The body of `reconcile_match` (lines 544-600) given the on-chain state
string fetched for the match: compare with `format!("{:?}")` of the
database state, append one reconciliation-log row, return
`Ok(!is_divergent)`.  The source performs no resolution of any kind: the
match row and transition log are untouched. -/
def reconcile_match_with (chain_state : String) (match_id : Nat)
    (σ : BackendWorld) : Except ApiErr Bool × BackendWorld :=
  match get_match_entity σ match_id with
  | none => (.error (.notFound "Match not found"), σ)
  | some m =>
    let off := debugStr m.state
    let dv : Bool := decide (chain_state ≠ off)
    let σ₁ := { σ with recon_log :=
                  σ.recon_log ++ [⟨match_id, m.state, chain_state, dv⟩] }
    (.ok (!dv), σ₁)

/-- `reconcile_match` as wired in the source: the fetched state comes from
the `get_match_state_from_chain` placeholder. -/
def reconcile_match (match_id : Nat) (σ : BackendWorld) :
    Except ApiErr Bool × BackendWorld :=
  match get_match_entity σ match_id with
  | none => (.error (.notFound "Match not found"), σ)
  | some m =>
    reconcile_match_with (get_match_state_from_chain m.on_chain_match_id)
      match_id σ

/-! ## Governance Multisig — `src/contracts/governance_multisig/src/`

Addresses and 32-byte proposal ids are `Nat`, `Symbol` is `String`, the
XDR-encoded `Bytes` args are `List Nat`.  Storage maps are functions.
`require_auth` succeeds for the transactions considered here (no claim is
about missing signatures).  The proposal's `status: u32` field is modelled
directly by the `ProposalStatus` enum, which the source casts to and from
`u32` consistently. -/

/-- `ProposalStatus` (types.rs lines 9-18). -/
inductive ProposalStatus where
  | Pending
  | Approved
  | Executed
  | Cancelled
deriving DecidableEq

/-- `GovernanceError` (error.rs). -/
inductive GovernanceError where
  | AlreadyInitialized
  | NotInitialized
  | Unauthorized
  | NotASigner
  | ProposalNotFound
  | ProposalAlreadyExists
  | ProposalAlreadyExecuted
  | ProposalExpired
  | ProposalCancelled
  | AlreadyApproved
  | NotApproved
  | InsufficientApprovals
  | ExecutionTooEarly
  | SelfCallNotAllowed
  | InvalidThreshold
  | ThresholdExceedsSigners
  | MaxSignersReached
  | SignerAlreadyExists
  | SignerNotFound
  | CannotRemoveLastSigner
  | EmptySignerList
deriving DecidableEq

/-- `SignerInfo` (types.rs lines 23-30). -/
structure SignerInfo where
  address : Nat
  added_at : Nat
  is_active : Bool
deriving DecidableEq

/-- `Proposal` (types.rs lines 35-58). -/
structure Proposal where
  proposal_id : Nat
  target_contract : Nat
  function : String
  args : List Nat
  proposer : Nat
  status : ProposalStatus
  approval_count : Nat
  created_at : Nat
  execute_after : Option Nat
  executed_at : Option Nat
  expiry : Option Nat
deriving DecidableEq

/-- `GovernanceConfig` (types.rs lines 63-72). -/
structure GovConfig where
  threshold : Nat
  max_signers : Nat
  proposal_ttl : Nat
  min_delay : Nat
deriving DecidableEq

/-- One `env.invoke_contract` performed by `execute` (lib.rs lines 531-536).
`guard_was_set` snapshots whether the proposal's execution guard was already
true at the moment the call was issued (source order: the guard is written on
line 519, the call happens on line 532). -/
structure ExtCall where
  target : Nat
  function : String
  call_args : List Nat
  guard_was_set : Bool
deriving DecidableEq

/-- The governance contract's storage (storage.rs `DataKey` entries) plus the
ledger clock, the contract's own address and the external calls issued.
`config` is meaningful only once `inited` is true (the source's
`get_config` panics before initialization; every entry point checks
`is_initialized` first). -/
structure GovState where
  inited : Bool
  self_addr : Nat
  config : GovConfig
  signer_count : Nat
  signers : Nat → Option SignerInfo
  signer_list : List Nat
  proposals : Nat → Option Proposal
  approvals_map : Nat → List Nat
  executed_guard : Nat → Bool
  ext_calls : List ExtCall
  now : Nat

/-- Pointwise map update used for the persistent-storage `set` helpers. -/
def setFun {α : Type} (f : Nat → α) (k : Nat) (v : α) : Nat → α :=
  fun x => if x = k then v else f x

/-- `storage::is_active_signer` (storage.rs lines 126-131). -/
def is_active_signer (σ : GovState) (a : Nat) : Bool :=
  match σ.signers a with
  | some info => info.is_active
  | none => false

/-- `storage::has_approved` (storage.rs lines 174-182): membership in the
stored approvals vector. -/
def has_approved (σ : GovState) (pid a : Nat) : Bool :=
  (σ.approvals_map pid).contains a

/-- The expiry test of `approve`/`execute`: error iff
`timestamp > expiry` for a present expiry. -/
def is_expired (now : Nat) : Option Nat → Bool
  | some e => decide (e < now)
  | none => false

/-- `GovernanceMultisig::initialize` (lib.rs lines 129-191).  Renamed to
`init_gov` in the embedding. -/
def init_gov (signer_addrs : List Nat) (threshold : Nat) (σ : GovState) :
    Except GovernanceError GovState :=
  if σ.inited then .error .AlreadyInitialized
  else if signer_addrs = [] then .error .EmptySignerList
  else if threshold = 0 then .error .InvalidThreshold
  else if signer_addrs.length < threshold then .error .ThresholdExceedsSigners
  else
    let newSigners := signer_addrs.foldl
      (fun f s => setFun f s (some ⟨s, σ.now, true⟩)) σ.signers
    .ok { σ with
      inited := true
      signers := newSigners
      signer_list := signer_addrs
      signer_count := signer_addrs.length
      config := ⟨threshold, 20, 7 * 24 * 60 * 60, 0⟩ }

/-- `GovernanceMultisig::create_proposal` (lib.rs lines 200-272). -/
def create_proposal (proposer pid target : Nat) (function : String)
    (args : List Nat) (execute_after : Option Nat) (σ : GovState) :
    Except GovernanceError GovState :=
  if ¬ σ.inited then .error .NotInitialized
  else if ¬ is_active_signer σ proposer then .error .NotASigner
  else if (σ.proposals pid).isSome then .error .ProposalAlreadyExists
  else if target = σ.self_addr then .error .SelfCallNotAllowed
  else
    let p : Proposal :=
      { proposal_id := pid
        target_contract := target
        function := function
        args := args
        proposer := proposer
        status := .Pending
        approval_count := 0
        created_at := σ.now
        execute_after := execute_after
        executed_at := none
        expiry := some (σ.now + σ.config.proposal_ttl) }
    .ok { σ with
      proposals := setFun σ.proposals pid (some p)
      approvals_map := setFun σ.approvals_map pid [] }

/-- `GovernanceMultisig::approve` (lib.rs lines 288-362), checks in source
order: initialized, active signer, execution guard, proposal lookup, status
`Executed` / `Cancelled`, expiry, duplicate approval; then push the signer,
increment `approval_count`, and set status `Approved` iff the new count
reaches the threshold. -/
def approve (signer pid : Nat) (σ : GovState) :
    Except GovernanceError GovState :=
  if ¬ σ.inited then .error .NotInitialized
  else if ¬ is_active_signer σ signer then .error .NotASigner
  else if σ.executed_guard pid then .error .ProposalAlreadyExecuted
  else
    match σ.proposals pid with
    | none => .error .ProposalNotFound
    | some p =>
      if p.status = .Executed then .error .ProposalAlreadyExecuted
      else if p.status = .Cancelled then .error .ProposalCancelled
      else if is_expired σ.now p.expiry then .error .ProposalExpired
      else if has_approved σ pid signer then .error .AlreadyApproved
      else
        let new_count := p.approval_count + 1
        let new_status :=
          if σ.config.threshold ≤ new_count then ProposalStatus.Approved
          else p.status
        let p' := { p with approval_count := new_count, status := new_status }
        .ok { σ with
          approvals_map :=
            setFun σ.approvals_map pid (σ.approvals_map pid ++ [signer])
          proposals := setFun σ.proposals pid (some p') }

/-- `GovernanceMultisig::revoke_approval` (lib.rs lines 376-444).  Note the
source checks the guard and status `Executed` but has no `Cancelled` check;
after removal the status reverts to `Pending` whenever the new count is
below the threshold.  (`approval_count - 1` is `Nat` subtraction; the source
value is a `u32` that is positive whenever the stored approvals vector is
consistent with the count.) -/
def revoke_approval (signer pid : Nat) (σ : GovState) :
    Except GovernanceError GovState :=
  if ¬ σ.inited then .error .NotInitialized
  else if ¬ is_active_signer σ signer then .error .NotASigner
  else if σ.executed_guard pid then .error .ProposalAlreadyExecuted
  else
    match σ.proposals pid with
    | none => .error .ProposalNotFound
    | some p =>
      if p.status = .Executed then .error .ProposalAlreadyExecuted
      else if ¬ has_approved σ pid signer then .error .NotApproved
      else
        let new_count := p.approval_count - 1
        let new_status :=
          if new_count < σ.config.threshold then ProposalStatus.Pending
          else p.status
        let p' := { p with approval_count := new_count, status := new_status }
        .ok { σ with
          approvals_map :=
            setFun σ.approvals_map pid
              ((σ.approvals_map pid).filter (fun a => a ≠ signer))
          proposals := setFun σ.proposals pid (some p') }

/-- `GovernanceMultisig::execute` (lib.rs lines 461-548), checks in source
order; on success the execution guard is written first (line 519), the
proposal is stored with status `Executed` and `executed_at` (lines 522-524),
and only then the external call is issued (line 532) — with an *empty*
argument vector (`empty_args`, lines 527-536), not the stored `args`. -/
def execute (executor pid : Nat) (σ : GovState) :
    Except GovernanceError GovState :=
  if ¬ σ.inited then .error .NotInitialized
  else if ¬ is_active_signer σ executor then .error .NotASigner
  else if σ.executed_guard pid then .error .ProposalAlreadyExecuted
  else
    match σ.proposals pid with
    | none => .error .ProposalNotFound
    | some p =>
      if p.status = .Executed then .error .ProposalAlreadyExecuted
      else if p.status = .Cancelled then .error .ProposalCancelled
      else if is_expired σ.now p.expiry then .error .ProposalExpired
      else if p.approval_count < σ.config.threshold then
        .error .InsufficientApprovals
      else if (match p.execute_after with
               | some t => decide (σ.now < t)
               | none => false) then .error .ExecutionTooEarly
      else
        let σg := { σ with executed_guard := setFun σ.executed_guard pid true }
        let p' := { p with status := .Executed, executed_at := some σ.now }
        let σp := { σg with proposals := setFun σg.proposals pid (some p') }
        let call : ExtCall :=
          ⟨p.target_contract, p.function, [], σg.executed_guard pid⟩
        .ok { σp with ext_calls := σp.ext_calls ++ [call] }

/-- `GovernanceMultisig::cancel_proposal` (lib.rs lines 561-605): guard,
lookup, status `Executed`, proposer-only; then status := `Cancelled`. -/
def cancel_proposal (caller pid : Nat) (σ : GovState) :
    Except GovernanceError GovState :=
  if ¬ σ.inited then .error .NotInitialized
  else if σ.executed_guard pid then .error .ProposalAlreadyExecuted
  else
    match σ.proposals pid with
    | none => .error .ProposalNotFound
    | some p =>
      if p.status = .Executed then .error .ProposalAlreadyExecuted
      else if caller ≠ p.proposer then .error .Unauthorized
      else
        .ok { σ with
          proposals :=
            setFun σ.proposals pid (some { p with status := .Cancelled }) }

/-- `GovernanceMultisig::internal_add_signer` (lib.rs lines 619-673). -/
def internal_add_signer (_pid new_signer : Nat) (σ : GovState) :
    Except GovernanceError GovState :=
  if ¬ σ.inited then .error .NotInitialized
  else if (σ.signers new_signer).isSome then .error .SignerAlreadyExists
  else if σ.config.max_signers ≤ σ.signer_count then .error .MaxSignersReached
  else
    .ok { σ with
      signers := setFun σ.signers new_signer (some ⟨new_signer, σ.now, true⟩)
      signer_list := σ.signer_list ++ [new_signer]
      signer_count := σ.signer_count + 1 }

/-- `GovernanceMultisig::internal_remove_signer` (lib.rs lines 680-735). -/
def internal_remove_signer (_pid signer : Nat) (σ : GovState) :
    Except GovernanceError GovState :=
  if ¬ σ.inited then .error .NotInitialized
  else if (σ.signers signer).isNone then .error .SignerNotFound
  else if σ.signer_count ≤ 1 then .error .CannotRemoveLastSigner
  else if σ.signer_count - 1 < σ.config.threshold then
    .error .ThresholdExceedsSigners
  else
    .ok { σ with
      signers := setFun σ.signers signer none
      signer_list := σ.signer_list.filter (fun a => a ≠ signer)
      signer_count := σ.signer_count - 1 }

/-- `GovernanceMultisig::internal_update_threshold` (lib.rs lines 742-777). -/
def internal_update_threshold (_pid new_threshold : Nat) (σ : GovState) :
    Except GovernanceError GovState :=
  if ¬ σ.inited then .error .NotInitialized
  else if new_threshold = 0 then .error .InvalidThreshold
  else if σ.signer_count < new_threshold then .error .ThresholdExceedsSigners
  else
    .ok { σ with config := { σ.config with threshold := new_threshold } }

/-- Every mutating entry point of the governance contract, plus ledger-time
passage between transactions. -/
inductive GovOp where
  | opInit (signer_addrs : List Nat) (threshold : Nat)
  | opCreate (proposer pid target : Nat) (function : String)
      (args : List Nat) (execute_after : Option Nat)
  | opApprove (signer pid : Nat)
  | opRevoke (signer pid : Nat)
  | opExecute (executor pid : Nat)
  | opCancel (caller pid : Nat)
  | opAddSigner (pid s : Nat)
  | opRemoveSigner (pid s : Nat)
  | opUpdateThreshold (pid t : Nat)
  | opSetTime (t : Nat)

/-- Transaction semantics: a failed invocation rolls back, a successful one
commits. -/
def applyGovOp (σ : GovState) (op : GovOp) : GovState :=
  let keep : Except GovernanceError GovState → GovState :=
    fun r => match r with | .ok σ' => σ' | .error _ => σ
  match op with
  | .opInit s t => keep (init_gov s t σ)
  | .opCreate pr pid tg fn a ea => keep (create_proposal pr pid tg fn a ea σ)
  | .opApprove s pid => keep (approve s pid σ)
  | .opRevoke s pid => keep (revoke_approval s pid σ)
  | .opExecute e pid => keep (execute e pid σ)
  | .opCancel c pid => keep (cancel_proposal c pid σ)
  | .opAddSigner pid s => keep (internal_add_signer pid s σ)
  | .opRemoveSigner pid s => keep (internal_remove_signer pid s σ)
  | .opUpdateThreshold pid t => keep (internal_update_threshold pid t σ)
  | .opSetTime t => { σ with now := t }

/-! ## Slashing Contract — `src/contracts/slashing_contract/src/lib.rs`

Entry points panic on bad input; a panic aborts the invocation and rolls
storage back, so they are embedded as `Except String SlashState` with the
panic message as the error.  `require_auth` is the oracle `auth : Nat → Bool`
(which addresses have authorized the transaction) and the Identity
collaborator's `get_role` is the oracle `role : Nat → Nat`.  Calls made to
the Identity and Escrow contracts are recorded in `identity_calls` /
`escrow_calls` at the moment they are issued. -/

/-- `SlashStatus` (lib.rs lines 128-133). -/
inductive SlashStatus where
  | Proposed
  | Approved
  | Executed
  | Cancelled
deriving DecidableEq

/-- `SlashCase` (lib.rs lines 137-146). -/
structure SlashCase where
  case_id : Nat
  subject : Nat
  initiator : Nat
  reason_code : Nat
  evidence_hash : Nat
  status : SlashStatus
  created_at : Nat
  resolved_at : Option Nat
deriving DecidableEq

/-- `BanRecord` (lib.rs lines 159-165). -/
structure BanRecord where
  subject : Nat
  case_id : Nat
  banned_at : Nat
  is_permanent : Bool
  expires_at : Option Nat
deriving DecidableEq

/-- An `env.invoke_contract` to the escrow vault
(`slash_stake` / `confiscate_reward`, lib.rs lines 619-623 and 656-660). -/
structure EscrowCall where
  contract : Nat
  function : String
  subject : Nat
  amount : Int
  asset : Nat
deriving DecidableEq

/-- The contract events that carry the acting address
(lib.rs `CaseOpened`, `CaseApproved`, `PenaltyExecuted`). -/
inductive SlashEvent where
  | caseOpened (case_id subject initiator : Nat)
  | caseApproved (case_id approver : Nat)
  | penaltyExecuted (case_id penalty_type subject : Nat)
deriving DecidableEq

/-- The slashing contract's storage (`DataKey` entries) plus ledger clock,
recorded external calls and emitted events.  `identity_calls` records each
`get_role` query as (identity contract, queried address). -/
structure SlashState where
  admin : Option Nat
  identity_contract : Option Nat
  escrow_contract : Option Nat
  cases : Nat → Option SlashCase
  bans : Nat → Option BanRecord
  case_executed : Nat → Bool
  identity_calls : List (Nat × Nat)
  escrow_calls : List EscrowCall
  events : List SlashEvent
  now : Nat

/-- `SlashingContract::get_caller` (lib.rs lines 537-544): reads the stored
admin unconditionally ("placeholder that requires auth"). -/
def get_caller (σ : SlashState) : Option Nat :=
  σ.admin

/-- `SlashingContract::require_authority` (lib.rs lines 547-582): the admin
short-circuits; a non-admin caller is checked against the Identity
contract's `get_role` (roles Admin=2, System=3) when one is set. -/
def require_authority (auth : Nat → Bool) (role : Nat → Nat) (caller : Nat)
    (σ : SlashState) : Except String SlashState :=
  match σ.admin with
  | none => .error "not initialized"
  | some admin =>
    if caller = admin then
      if auth caller then .ok σ else .error "auth declined"
    else
      match σ.identity_contract with
      | some idc =>
        if auth caller then
          let σ' := { σ with identity_calls := σ.identity_calls ++ [(idc, caller)] }
          let r := role caller
          if r ≠ 2 ∧ r ≠ 3 then .error "insufficient authority" else .ok σ'
        else .error "auth declined"
      | none => .error "caller not authorized"

/-- `SlashingContract::is_permanently_banned` (lib.rs lines 585-594). -/
def is_permanently_banned (σ : SlashState) (subject : Nat) : Bool :=
  match σ.bans subject with
  | some b => b.is_permanent
  | none => false

/-- `SlashingContract::is_banned` (lib.rs lines 486-503). -/
def is_banned (σ : SlashState) (subject : Nat) : Bool :=
  match σ.bans subject with
  | some b =>
    if b.is_permanent then true
    else match b.expires_at with
      | some e => decide (σ.now < e)
      | none => false
  | none => false

/-- `SlashingContract::initialize` (lib.rs lines 183-192); renamed
`init_slashing` in the embedding. -/
def init_slashing (auth : Nat → Bool) (admin : Nat) (σ : SlashState) :
    Except String SlashState :=
  if σ.admin.isSome then .error "already initialized"
  else if auth admin then .ok { σ with admin := some admin }
  else .error "auth declined"

/-- `SlashingContract::open_case` (lib.rs lines 250-299).  The Rust entry
point takes no caller argument: the initiator is `get_caller`, i.e. the
stored admin. -/
def open_case (auth : Nat → Bool) (role : Nat → Nat)
    (case_id subject reason_code evidence_hash : Nat) (σ : SlashState) :
    Except String SlashState :=
  match get_caller σ with
  | none => .error "not initialized"
  | some initiator =>
    match require_authority auth role initiator σ with
    | .error e => .error e
    | .ok σ₁ =>
      if (σ₁.cases case_id).isSome then .error "case already exists"
      else if is_permanently_banned σ₁ subject then
        .error "subject already permanently banned"
      else
        let c : SlashCase :=
          { case_id := case_id
            subject := subject
            initiator := initiator
            reason_code := reason_code
            evidence_hash := evidence_hash
            status := .Proposed
            created_at := σ₁.now
            resolved_at := none }
        .ok { σ₁ with
          cases := setFun σ₁.cases case_id (some c)
          events := σ₁.events ++ [.caseOpened case_id subject initiator] }

/-- `SlashingContract::approve_case` (lib.rs lines 310-333). -/
def approve_case (auth : Nat → Bool) (role : Nat → Nat) (case_id : Nat)
    (σ : SlashState) : Except String SlashState :=
  match get_caller σ with
  | none => .error "not initialized"
  | some approver =>
    match require_authority auth role approver σ with
    | .error e => .error e
    | .ok σ₁ =>
      match σ₁.cases case_id with
      | none => .error "case not found"
      | some c =>
        if c.status ≠ .Proposed then .error "invalid case status"
        else
          .ok { σ₁ with
            cases := setFun σ₁.cases case_id (some { c with status := .Approved })
            events := σ₁.events ++ [.caseApproved case_id approver] }

/-- `execute_stake_slash` (lib.rs lines 597-631): requires amount/asset,
positive amount, an escrow contract, then invokes `slash_stake`. -/
def execute_stake_slash (subject : Nat) (amount : Option Int)
    (asset : Option Nat) (σ : SlashState) : Except String SlashState :=
  match amount, asset with
  | some am, some asst =>
    if am ≤ 0 then .error "amount must be positive"
    else
      match σ.escrow_contract with
      | none => .error "escrow contract not set"
      | some esc =>
        .ok { σ with escrow_calls :=
                σ.escrow_calls ++ [⟨esc, "slash_stake", subject, am, asst⟩] }
  | _, _ => .error "amount and asset required for stake slash"

/-- `execute_reward_confiscation` (lib.rs lines 634-668). -/
def execute_reward_confiscation (subject : Nat) (amount : Option Int)
    (asset : Option Nat) (σ : SlashState) : Except String SlashState :=
  match amount, asset with
  | some am, some asst =>
    if am ≤ 0 then .error "amount must be positive"
    else
      match σ.escrow_contract with
      | none => .error "escrow contract not set"
      | some esc =>
        .ok { σ with escrow_calls :=
                σ.escrow_calls ++
                  [⟨esc, "confiscate_reward", subject, am, asst⟩] }
  | _, _ => .error "amount and asset required for reward confiscation"

/-- `execute_temporary_suspension` (lib.rs lines 671-704): writes a
non-permanent `BanRecord` for the subject — unconditionally overwriting
whatever record (including a permanent one) is stored under
`DataKey::BannedUsers(subject)`. -/
def execute_temporary_suspension (subject : Nat) (duration : Option Nat)
    (case_id : Nat) (σ : SlashState) : Except String SlashState :=
  match duration with
  | none => .error "duration required for temporary suspension"
  | some d =>
    if d = 0 then .error "duration must be positive"
    else
      .ok { σ with bans := (setFun σ.bans subject
              (some ⟨subject, case_id, σ.now, false, some (σ.now + d)⟩)) }

/-- `execute_permanent_ban` (lib.rs lines 707-724). -/
def execute_permanent_ban (subject case_id : Nat) (σ : SlashState) :
    Except String SlashState :=
  .ok { σ with bans := (setFun σ.bans subject
          (some ⟨subject, case_id, σ.now, true, none⟩)) }

/-- `SlashingContract::execute_penalty` (lib.rs lines 350-422): authority,
execution guard, lookup, status `Approved`, penalty dispatch, then mark the
case `Executed` and set the per-case guard. -/
def execute_penalty (auth : Nat → Bool) (role : Nat → Nat)
    (case_id penalty_type : Nat) (amount : Option Int) (asset : Option Nat)
    (duration : Option Nat) (σ : SlashState) : Except String SlashState :=
  match get_caller σ with
  | none => .error "not initialized"
  | some executor =>
    match require_authority auth role executor σ with
    | .error e => .error e
    | .ok σ₁ =>
      if σ₁.case_executed case_id then .error "case already executed"
      else
        match σ₁.cases case_id with
        | none => .error "case not found"
        | some c =>
          if c.status ≠ .Approved then .error "case not approved"
          else if 3 < penalty_type then .error "invalid penalty type"
          else
            let dispatched : Except String SlashState :=
              if penalty_type = 0 then
                execute_stake_slash c.subject amount asset σ₁
              else if penalty_type = 1 then
                execute_reward_confiscation c.subject amount asset σ₁
              else if penalty_type = 2 then
                execute_temporary_suspension c.subject duration case_id σ₁
              else
                execute_permanent_ban c.subject case_id σ₁
            match dispatched with
            | .error e => .error e
            | .ok σ₂ =>
              let c' := { c with status := SlashStatus.Executed,
                                 resolved_at := some σ₂.now }
              .ok { σ₂ with
                cases := setFun σ₂.cases case_id (some c')
                case_executed := setFun σ₂.case_executed case_id true
                events := σ₂.events ++
                  [.penaltyExecuted case_id penalty_type c.subject] }

/-- `SlashingContract::cancel_case` (lib.rs lines 433-463): direct admin
auth; only `Proposed` cases. -/
def cancel_case (auth : Nat → Bool) (case_id : Nat) (σ : SlashState) :
    Except String SlashState :=
  match σ.admin with
  | none => .error "not initialized"
  | some admin =>
    if ¬ auth admin then .error "auth declined"
    else
      match σ.cases case_id with
      | none => .error "case not found"
      | some c =>
        if c.status ≠ .Proposed then .error "can only cancel proposed cases"
        else
          .ok { σ with cases := (setFun σ.cases case_id
                  (some { c with status := .Cancelled,
                                 resolved_at := some σ.now })) }

/-- Mutating entry points of the slashing contract, for concrete traces. -/
inductive SlashOp where
  | opInit (admin : Nat)
  | opSetEscrow (esc : Nat)
  | opSetIdentity (idc : Nat)
  | opOpen (case_id subject reason_code evidence_hash : Nat)
  | opApproveCase (case_id : Nat)
  | opExecutePenalty (case_id penalty_type : Nat) (amount : Option Int)
      (asset : Option Nat) (duration : Option Nat)
  | opCancelCase (case_id : Nat)
  | opSetTime (t : Nat)

/-- Transaction semantics for slashing traces: a panic rolls back. -/
def applySlashOp (auth : Nat → Bool) (role : Nat → Nat) (σ : SlashState)
    (op : SlashOp) : SlashState :=
  let keep : Except String SlashState → SlashState :=
    fun r => match r with | .ok σ' => σ' | .error _ => σ
  match op with
  | .opInit a => keep (init_slashing auth a σ)
  | .opSetEscrow e =>
    match σ.admin with
    | some a => if auth a then { σ with escrow_contract := some e } else σ
    | none => σ
  | .opSetIdentity i =>
    match σ.admin with
    | some a => if auth a then { σ with identity_contract := some i } else σ
    | none => σ
  | .opOpen cid s rc ev => keep (open_case auth role cid s rc ev σ)
  | .opApproveCase cid => keep (approve_case auth role cid σ)
  | .opExecutePenalty cid pt am asst du =>
    keep (execute_penalty auth role cid pt am asst du σ)
  | .opCancelCase cid => keep (cancel_case auth cid σ)
  | .opSetTime t => { σ with now := t }

/-! ## Concrete fixtures

Small concrete states and traces used to instantiate the theorems below. -/

/-- A 56-character player address (the DTO validators require length 56). -/
def addrA : String := "GAAAAAAAAAAAAAAAAAAAAAAAAAAAAAAAAAAAAAAAAAAAAAAAAAAAAAAA"

/-- A second 56-character player address. -/
def addrB : String := "GBBBBBBBBBBBBBBBBBBBBBBBBBBBBBBBBBBBBBBBBBBBBBBBBBBBBBBB"

/-- A chain oracle whose every invocation succeeds with hash `"h1"`. -/
def chainOk : ChainOracle := fun _ => .ok "h1"

/-- An empty backend world. -/
def emptyWorld : BackendWorld :=
  { match_authority := [], transitions := [], chain_sync := [], recon_log := []
    chain_calls := [], match_lifecycle_contract := "CMATCH", next_id := 0, now := 0 }

/-- A `create_match` DTO whose two players are the same address. -/
def dtoSame : CreateMatchDTO := ⟨addrA, addrA, none⟩

/-- A freshly created match entity. -/
def mCreated : MatchAuthorityEntity :=
  { id := 0, on_chain_match_id := "chain0", player_a := addrA, player_b := addrB
    winner := none, state := .Created, created_at := 0, started_at := none
    ended_at := none, last_chain_tx := none, idempotency_key := none }

/-- A world holding exactly `mCreated`. -/
def worldCreated : BackendWorld :=
  { match_authority := [mCreated], transitions := [], chain_sync := []
    recon_log := [], chain_calls := [], match_lifecycle_contract := "CMATCH"
    next_id := 1, now := 0 }

/-- An uninitialized governance contract at address 99. -/
def govBase : GovState :=
  { inited := false, self_addr := 99, config := ⟨1, 20, 604800, 0⟩
    signer_count := 0, signers := fun _ => none, signer_list := []
    proposals := fun _ => none, approvals_map := fun _ => []
    executed_guard := fun _ => false, ext_calls := [], now := 0 }

/-- Governance demo: initialized with single signer 1, threshold 1. -/
def govD1 : GovState := applyGovOp govBase (.opInit [1] 1)

/-- Governance demo: proposal 5 targeting contract 2 created by signer 1. -/
def govD2 : GovState := applyGovOp govD1 (.opCreate 1 5 2 "do_upgrade" [] none)

/-- Governance demo: proposal 5 approved by signer 1 (threshold reached). -/
def govD3 : GovState := applyGovOp govD2 (.opApprove 1 5)

/-- Governance demo: proposal 5 executed by signer 1. -/
def govD4 : GovState := applyGovOp govD3 (.opExecute 1 5)

/-- Governance trace with non-empty stored args `[1, 2, 3]` for proposal 6,
approved and ready to execute. -/
def govE3 : GovState :=
  List.foldl applyGovOp govBase
    [.opInit [1] 1, .opCreate 1 6 2 "set_params" [1, 2, 3] none, .opApprove 1 6]

/-- `govE3` after executing proposal 6. -/
def govE4 : GovState := applyGovOp govE3 (.opExecute 1 6)

/-- Governance trace: proposal 7 approved by its single signer and then
cancelled by the proposer. -/
def govG4 : GovState :=
  List.foldl applyGovOp govBase
    [.opInit [1] 1, .opCreate 1 7 2 "noop" [] none, .opApprove 1 7,
     .opCancel 1 7]

/-- `govG4` after signer 1 revokes the approval it gave before cancellation. -/
def govG5 : GovState := applyGovOp govG4 (.opRevoke 1 7)

/-- Authorization oracle: every address has signed. -/
def authAll : Nat → Bool := fun _ => true

/-- Identity-role oracle: every address has role 0 (no special role). -/
def roleNone : Nat → Nat := fun _ => 0

/-- An uninitialized slashing contract. -/
def slashBase : SlashState :=
  { admin := none, identity_contract := none, escrow_contract := none
    cases := fun _ => none, bans := fun _ => none
    case_executed := fun _ => false, identity_calls := [], escrow_calls := []
    events := [], now := 0 }

/-- The slashing contract initialized with admin 100. -/
def slashInit : SlashState := applySlashOp authAll roleNone slashBase (.opInit 100)

/-- Slashing trace: cases 1 and 2 opened against subject 42 and approved,
then case 2 executed as a permanent ban. -/
def slashA : SlashState :=
  List.foldl (applySlashOp authAll roleNone) slashBase
    [.opInit 100, .opOpen 1 42 100 7, .opOpen 2 42 101 8,
     .opApproveCase 1, .opApproveCase 2, .opExecutePenalty 2 3 none none none]

/-- `slashA` after executing case 1 as a temporary suspension of 3600
seconds against the same subject 42. -/
def slashB : SlashState :=
  applySlashOp authAll roleNone slashA (.opExecutePenalty 1 2 none none (some 3600))

/-- `get_ban_record` (lib.rs lines 526-530). -/
def get_ban_record (σ : SlashState) (subject : Nat) : Option BanRecord :=
  σ.bans subject

/-- `is_case_executed` (lib.rs lines 512-517). -/
def is_case_executed (σ : SlashState) (case_id : Nat) : Bool :=
  σ.case_executed case_id

/-! ## Theorems -/

/-- C1: `can_transition_to from to` holds exactly on the five listed edges
plus the idempotent self-loop; in particular `Finalized` has no outgoing
edge other than its self-loop and every other pair is rejected. -/
theorem can_transition_to_iff (a b : MatchAuthorityState) :
    a.can_transition_to b = true ↔
      ((a = .Created ∧ b = .Started) ∨
       (a = .Started ∧ b = .Completed) ∨
       (a = .Completed ∧ b = .Disputed) ∨
       (a = .Completed ∧ b = .Finalized) ∨
       (a = .Disputed ∧ b = .Finalized) ∨
       a = b) := by
  revert a b; decide

/-- C4 counterexample: a `create_match` request whose two players are the
same 56-character address is *not* rejected — the service issues the chain
call and inserts the match row.  (The source has no distinct-player and no
ban check.) -/
theorem create_match_equal_players_not_rejected :
    dtoSame.player_a = dtoSame.player_b ∧
    (create_match chainOk dtoSame emptyWorld).1 =
      .ok ({ id := 0, on_chain_match_id := "h1", player_a := addrA
             player_b := addrA, winner := none, state := .Created
             created_at := 0, started_at := none, ended_at := none
             last_chain_tx := some "h1", idempotency_key := none },
           [⟨0, .Created, .Created, addrA, some "h1"⟩]) ∧
    (create_match chainOk dtoSame emptyWorld).2.match_authority.length = 1 ∧
    (create_match chainOk dtoSame emptyWorld).2.chain_calls.length = 1 := by
  exact ⟨rfl, rfl, by decide, by decide⟩

/-- C3 counterexample: with the database state `Created` and a fetched
on-chain state `"Started"` — a strict FSM successor — `reconcile_match`
logs the divergence but does *not* advance the database state and appends
no `MatchTransition` row. -/
theorem reconcile_match_does_not_advance :
    debugStr MatchAuthorityState.Created ≠ "Started" ∧
    parseState "Started" = some .Started ∧
    MatchAuthorityState.Created.can_transition_to .Started = true ∧
    (reconcile_match_with "Started" 0 worldCreated).1 = .ok false ∧
    (reconcile_match_with "Started" 0 worldCreated).2.recon_log =
      [⟨0, .Created, "Started", true⟩] ∧
    (reconcile_match_with "Started" 0 worldCreated).2.match_authority =
      [mCreated] ∧
    (reconcile_match_with "Started" 0 worldCreated).2.transitions = [] := by
  exact ⟨by decide, by decide, by decide, rfl, by decide, by decide, by decide⟩

/-- C7 counterexample: with one signer and threshold 1, after
`create_proposal`, `approve`, `cancel_proposal`, the proposal is
`Cancelled`; the signer's subsequent `revoke_approval` succeeds (the source
does not check `Cancelled` there) and resets the status to `Pending` — an
edge out of `Cancelled`. -/
theorem cancelled_proposal_escapes_via_revoke :
    (govG4.proposals 7).map Proposal.status = some .Cancelled ∧
    (∃ σ', revoke_approval 1 7 govG4 = .ok σ' ∧
       (σ'.proposals 7).map Proposal.status = some .Pending) ∧
    (govG5.proposals 7).map Proposal.status = some .Pending := by
  refine ⟨by decide, ⟨govG5, rfl, by decide⟩, by decide⟩

/-- C8 evidence: case 1 is opened against subject 42 before case 2's
permanent ban is executed; executing case 1 afterwards as a
`TemporarySuspension` *overwrites* the permanent `BanRecord` with a
non-permanent one, and a later `open_case` against 42 then succeeds again —
while the contract's own documentation calls permanent bans irreversible. -/
theorem permanent_ban_record_overwritten :
    is_permanently_banned slashA 42 = true ∧
    get_ban_record slashA 42 = some ⟨42, 2, 0, true, none⟩ ∧
    (slashA.cases 1).map SlashCase.status = some .Approved ∧
    (slashB.cases 1).map SlashCase.status = some .Executed ∧
    is_case_executed slashB 1 = true ∧
    get_ban_record slashB 42 = some ⟨42, 1, 0, false, some 3600⟩ ∧
    is_permanently_banned slashB 42 = false := by
  refine ⟨?_, ?_, ?_, ?_, ?_, ?_, ?_⟩ <;> decide

/-! ### Governance helper lemmas -/

/-- On an executed proposal (guard set), `approve` fails with
`ProposalAlreadyExecuted`. -/
theorem approve_guard_err (s pid : Nat) (σ : GovState)
    (hi : σ.inited = true) (ha : is_active_signer σ s = true)
    (hg : σ.executed_guard pid = true) :
    approve s pid σ = .error .ProposalAlreadyExecuted := by
  simp [approve, hi, ha, hg]

/-- On an executed proposal, `revoke_approval` fails with
`ProposalAlreadyExecuted`. -/
theorem revoke_guard_err (s pid : Nat) (σ : GovState)
    (hi : σ.inited = true) (ha : is_active_signer σ s = true)
    (hg : σ.executed_guard pid = true) :
    revoke_approval s pid σ = .error .ProposalAlreadyExecuted := by
  simp [revoke_approval, hi, ha, hg]

/-- On an executed proposal, `execute` fails with
`ProposalAlreadyExecuted`. -/
theorem execute_guard_err (e pid : Nat) (σ : GovState)
    (hi : σ.inited = true) (ha : is_active_signer σ e = true)
    (hg : σ.executed_guard pid = true) :
    execute e pid σ = .error .ProposalAlreadyExecuted := by
  simp [execute, hi, ha, hg]

/-- On an executed proposal, `cancel_proposal` fails with
`ProposalAlreadyExecuted` (the guard is checked before the proposer
check). -/
theorem cancel_guard_err (c pid : Nat) (σ : GovState)
    (hi : σ.inited = true) (hg : σ.executed_guard pid = true) :
    cancel_proposal c pid σ = .error .ProposalAlreadyExecuted := by
  simp [cancel_proposal, hi, hg]

/-- Shape of a successful `approve`: the guard for the target was unset, and
only the target proposal's row and approvals vector change. -/
theorem approve_ok_shape (s pid : Nat) (σ σ' : GovState)
    (h : approve s pid σ = .ok σ') :
    σ.executed_guard pid = false ∧
    σ'.inited = σ.inited ∧
    σ'.executed_guard = σ.executed_guard ∧
    (∀ q, q ≠ pid → σ'.proposals q = σ.proposals q) := by
  unfold approve at h
  repeat' split at h
  all_goals try exact Except.noConfusion h
  injection h with h'
  subst h'
  refine ⟨?_, rfl, rfl, fun q hq => ?_⟩
  · exact Bool.not_eq_true _ ▸ ‹¬ σ.executed_guard pid = true›
  · simp [setFun, hq]

/-- Shape of a successful `revoke_approval`: the guard for the target was
unset, and only the target proposal's row and approvals vector change. -/
theorem revoke_ok_shape (s pid : Nat) (σ σ' : GovState)
    (h : revoke_approval s pid σ = .ok σ') :
    σ.executed_guard pid = false ∧
    σ'.inited = σ.inited ∧
    σ'.executed_guard = σ.executed_guard ∧
    (∀ q, q ≠ pid → σ'.proposals q = σ.proposals q) := by
  unfold revoke_approval at h
  repeat' split at h
  all_goals try exact Except.noConfusion h
  injection h with h'
  subst h'
  refine ⟨?_, rfl, rfl, fun q hq => ?_⟩
  · exact Bool.not_eq_true _ ▸ ‹¬ σ.executed_guard pid = true›
  · simp [setFun, hq]

/-- Shape of a successful `cancel_proposal`. -/
theorem cancel_ok_shape (c pid : Nat) (σ σ' : GovState)
    (h : cancel_proposal c pid σ = .ok σ') :
    σ.executed_guard pid = false ∧
    σ'.inited = σ.inited ∧
    σ'.executed_guard = σ.executed_guard ∧
    (∀ q, q ≠ pid → σ'.proposals q = σ.proposals q) := by
  unfold cancel_proposal at h
  repeat' split at h
  all_goals try exact Except.noConfusion h
  injection h with h'
  subst h'
  refine ⟨?_, rfl, rfl, fun q hq => ?_⟩
  · exact Bool.not_eq_true _ ▸ ‹¬ σ.executed_guard pid = true›
  · simp [setFun, hq]

/-- Shape of a successful `create_proposal`: the target id was previously
vacant and only its row and approvals vector are written. -/
theorem create_ok_shape (pr pid tg : Nat) (fn : String) (a : List Nat)
    (ea : Option Nat) (σ σ' : GovState)
    (h : create_proposal pr pid tg fn a ea σ = .ok σ') :
    σ.proposals pid = none ∧
    σ'.inited = σ.inited ∧
    σ'.executed_guard = σ.executed_guard ∧
    (∀ q, q ≠ pid → σ'.proposals q = σ.proposals q) := by
  unfold create_proposal at h
  repeat' split at h
  all_goals try exact Except.noConfusion h
  injection h with h'
  subst h'
  refine ⟨?_, rfl, rfl, fun q hq => ?_⟩
  · exact Option.not_isSome_iff_eq_none.mp ‹¬ (σ.proposals pid).isSome = true›
  · simp [setFun, hq]

/-- Shape of a successful `execute`: the contract was initialized and the
guard unset; the guard is set, the proposal stored as `Executed`, and
exactly one external call is appended — to the stored target and function,
with an empty argument vector, issued after the guard write
(`guard_was_set = true`). -/
theorem execute_ok_shape (e pid : Nat) (σ σ' : GovState)
    (h : execute e pid σ = .ok σ') :
    σ.inited = true ∧
    σ.executed_guard pid = false ∧
    σ'.inited = σ.inited ∧
    σ'.executed_guard = setFun σ.executed_guard pid true ∧
    σ'.approvals_map = σ.approvals_map ∧
    (∃ P0, σ.proposals pid = some P0 ∧
       σ'.proposals = setFun σ.proposals pid
         (some { P0 with status := .Executed, executed_at := some σ.now }) ∧
       σ'.ext_calls = σ.ext_calls ++
         [⟨P0.target_contract, P0.function, [], true⟩]) := by
  unfold execute at h
  repeat' split at h
  all_goals try exact Except.noConfusion h
  injection h with h'
  subst h'
  refine ⟨?_, ?_, rfl, rfl, rfl, ?_⟩
  · exact of_not_not ‹¬ ¬ σ.inited = true›
  · exact Bool.not_eq_true _ ▸ ‹¬ σ.executed_guard pid = true›
  · exact ⟨_, ‹σ.proposals pid = some _›, rfl, by simp [setFun]⟩

/-- A successful `init_gov` starts from an uninitialized contract. -/
theorem init_gov_ok_not_inited (ss : List Nat) (t : Nat) (σ σ' : GovState)
    (h : init_gov ss t σ = .ok σ') : σ.inited = false := by
  unfold init_gov at h
  repeat' split at h
  all_goals try exact Except.noConfusion h
  exact Bool.not_eq_true _ ▸ ‹¬ σ.inited = true›

/-- The self-governance signer/threshold functions never touch proposals,
approvals or execution guards. -/
theorem internal_ops_preserve_proposals (pid x : Nat) (σ σ' : GovState) :
    (internal_add_signer pid x σ = .ok σ' ∨
     internal_remove_signer pid x σ = .ok σ' ∨
     internal_update_threshold pid x σ = .ok σ') →
    σ'.inited = σ.inited ∧
    σ'.executed_guard = σ.executed_guard ∧
    σ'.proposals = σ.proposals := by
  intro h
  rcases h with h | h | h
  · unfold internal_add_signer at h
    repeat' split at h
    all_goals try exact Except.noConfusion h
    injection h with h'
    subst h'
    exact ⟨rfl, rfl, rfl⟩
  · unfold internal_remove_signer at h
    repeat' split at h
    all_goals try exact Except.noConfusion h
    injection h with h'
    subst h'
    exact ⟨rfl, rfl, rfl⟩
  · unfold internal_update_threshold at h
    repeat' split at h
    all_goals try exact Except.noConfusion h
    injection h with h'
    subst h'
    exact ⟨rfl, rfl, rfl⟩

/-- One step of any governance transaction preserves "proposal `p` is
executed and frozen as `P`". -/
theorem gov_frozen_step (p : Nat) (P : Proposal) (σ : GovState) (op : GovOp)
    (hi : σ.inited = true) (hg : σ.executed_guard p = true)
    (hp : σ.proposals p = some P) :
    (applyGovOp σ op).inited = true ∧
    (applyGovOp σ op).executed_guard p = true ∧
    (applyGovOp σ op).proposals p = some P := by
  cases op with
  | opSetTime t => exact ⟨hi, hg, hp⟩
  | opInit ss t =>
    simp only [applyGovOp]
    cases h : init_gov ss t σ with
    | error e => exact ⟨hi, hg, hp⟩
    | ok σ' =>
      have := init_gov_ok_not_inited ss t σ σ' h
      rw [hi] at this; exact Bool.noConfusion this
  | opCreate pr pid tg fn a ea =>
    simp only [applyGovOp]
    cases h : create_proposal pr pid tg fn a ea σ with
    | error e => exact ⟨hi, hg, hp⟩
    | ok σ' =>
      obtain ⟨hvac, h1, h2, h3⟩ := create_ok_shape pr pid tg fn a ea σ σ' h
      have hne : p ≠ pid := by
        intro hEq; rw [hEq, hvac] at hp; exact Option.noConfusion hp
      exact ⟨h1 ▸ hi, h2 ▸ hg, (h3 p hne).trans hp⟩
  | opApprove s pid =>
    simp only [applyGovOp]
    cases h : approve s pid σ with
    | error e => exact ⟨hi, hg, hp⟩
    | ok σ' =>
      obtain ⟨hoff, h1, h2, h3⟩ := approve_ok_shape s pid σ σ' h
      have hne : p ≠ pid := by
        intro hEq; rw [hEq, hoff] at hg; exact Bool.noConfusion hg
      exact ⟨h1 ▸ hi, h2 ▸ hg, (h3 p hne).trans hp⟩
  | opRevoke s pid =>
    simp only [applyGovOp]
    cases h : revoke_approval s pid σ with
    | error e => exact ⟨hi, hg, hp⟩
    | ok σ' =>
      obtain ⟨hoff, h1, h2, h3⟩ := revoke_ok_shape s pid σ σ' h
      have hne : p ≠ pid := by
        intro hEq; rw [hEq, hoff] at hg; exact Bool.noConfusion hg
      exact ⟨h1 ▸ hi, h2 ▸ hg, (h3 p hne).trans hp⟩
  | opCancel c pid =>
    simp only [applyGovOp]
    cases h : cancel_proposal c pid σ with
    | error e => exact ⟨hi, hg, hp⟩
    | ok σ' =>
      obtain ⟨hoff, h1, h2, h3⟩ := cancel_ok_shape c pid σ σ' h
      have hne : p ≠ pid := by
        intro hEq; rw [hEq, hoff] at hg; exact Bool.noConfusion hg
      exact ⟨h1 ▸ hi, h2 ▸ hg, (h3 p hne).trans hp⟩
  | opExecute e pid =>
    simp only [applyGovOp]
    cases h : execute e pid σ with
    | error er => exact ⟨hi, hg, hp⟩
    | ok σ' =>
      obtain ⟨_, hoff, h1, h2, _, P0, hP0, h3, _⟩ := execute_ok_shape e pid σ σ' h
      have hne : p ≠ pid := by
        intro hEq; rw [hEq, hoff] at hg; exact Bool.noConfusion hg
      refine ⟨h1 ▸ hi, ?_, ?_⟩
      · rw [h2]; simp [setFun, hne, hg]
      · rw [h3]; simp [setFun, hne, hp]
  | opAddSigner pid s =>
    simp only [applyGovOp]
    cases h : internal_add_signer pid s σ with
    | error e => exact ⟨hi, hg, hp⟩
    | ok σ' =>
      obtain ⟨h1, h2, h3⟩ :=
        internal_ops_preserve_proposals pid s σ σ' (Or.inl h)
      exact ⟨h1 ▸ hi, h2 ▸ hg, h3 ▸ hp⟩
  | opRemoveSigner pid s =>
    simp only [applyGovOp]
    cases h : internal_remove_signer pid s σ with
    | error e => exact ⟨hi, hg, hp⟩
    | ok σ' =>
      obtain ⟨h1, h2, h3⟩ :=
        internal_ops_preserve_proposals pid s σ σ' (Or.inr (Or.inl h))
      exact ⟨h1 ▸ hi, h2 ▸ hg, h3 ▸ hp⟩
  | opUpdateThreshold pid t =>
    simp only [applyGovOp]
    cases h : internal_update_threshold pid t σ with
    | error e => exact ⟨hi, hg, hp⟩
    | ok σ' =>
      obtain ⟨h1, h2, h3⟩ :=
        internal_ops_preserve_proposals pid t σ σ' (Or.inr (Or.inr h))
      exact ⟨h1 ▸ hi, h2 ▸ hg, h3 ▸ hp⟩

/-- The frozen-proposal invariant holds along every transaction trace. -/
theorem gov_frozen_fold (p : Nat) (P : Proposal) (ops : List GovOp)
    (σ : GovState)
    (hi : σ.inited = true) (hg : σ.executed_guard p = true)
    (hp : σ.proposals p = some P) :
    (ops.foldl applyGovOp σ).inited = true ∧
    (ops.foldl applyGovOp σ).executed_guard p = true ∧
    (ops.foldl applyGovOp σ).proposals p = some P := by
  induction ops generalizing σ with
  | nil => exact ⟨hi, hg, hp⟩
  | cons op rest ih =>
    obtain ⟨h1, h2, h3⟩ := gov_frozen_step p P σ op hi hg hp
    exact ih (applyGovOp σ op) h1 h2 h3

/-- C2: once `execute` has succeeded on proposal `p`, the execution guard
for `p` is true and its stored status is `Executed`; along *every*
subsequent transaction trace the guard stays true and `p`'s stored record
never changes, and every `approve`, `revoke_approval`, `execute` (by any
active signer) and `cancel_proposal` (by anyone) on `p` fails with
`ProposalAlreadyExecuted` — and, the error aborting the transaction, leaves
the stored state unchanged. -/
theorem executed_proposal_is_frozen (σ : GovState) (e p : Nat)
    (σ₁ : GovState) (h : execute e p σ = .ok σ₁) :
    σ₁.executed_guard p = true ∧
    (σ₁.proposals p).map Proposal.status = some .Executed ∧
    ∀ ops : List GovOp,
      (ops.foldl applyGovOp σ₁).executed_guard p = true ∧
      (ops.foldl applyGovOp σ₁).proposals p = σ₁.proposals p ∧
      (∀ s, is_active_signer (ops.foldl applyGovOp σ₁) s = true →
         approve s p (ops.foldl applyGovOp σ₁) =
           .error .ProposalAlreadyExecuted ∧
         revoke_approval s p (ops.foldl applyGovOp σ₁) =
           .error .ProposalAlreadyExecuted ∧
         execute s p (ops.foldl applyGovOp σ₁) =
           .error .ProposalAlreadyExecuted) ∧
      (∀ c, cancel_proposal c p (ops.foldl applyGovOp σ₁) =
         .error .ProposalAlreadyExecuted) := by
  obtain ⟨hi, hoff, h1, h2, _, P0, hP0, h3, _⟩ := execute_ok_shape e p σ σ₁ h
  have hi1 : σ₁.inited = true := h1.trans hi
  have hg1 : σ₁.executed_guard p = true := by rw [h2]; simp [setFun]
  have hp1 : σ₁.proposals p =
      some { P0 with status := .Executed, executed_at := some σ.now } := by
    rw [h3]; simp [setFun]
  refine ⟨hg1, by rw [hp1]; rfl, fun ops => ?_⟩
  obtain ⟨hi2, hg2, hp2⟩ := gov_frozen_fold p _ ops σ₁ hi1 hg1 hp1
  refine ⟨hg2, hp2.trans hp1.symm, fun s hs => ⟨?_, ?_, ?_⟩, fun c => ?_⟩
  · exact approve_guard_err s p _ hi2 hs hg2
  · exact revoke_guard_err s p _ hi2 hs hg2
  · exact execute_guard_err s p _ hi2 hs hg2
  · exact cancel_guard_err c p _ hi2 hg2

/-- Witness for C2: in the concrete demo trace, executing proposal 5
succeeds, the guard is set, and (even after a further `cancel_proposal`
transaction, which fails) a subsequent `approve` fails with
`ProposalAlreadyExecuted`. -/
theorem executed_proposal_is_frozen_witness :
    execute 1 5 govD3 = .ok govD4 ∧
    govD4.executed_guard 5 = true ∧
    approve 1 5 (List.foldl applyGovOp govD4 [GovOp.opCancel 1 5]) =
      .error .ProposalAlreadyExecuted := by
  have hx : execute 1 5 govD3 = .ok govD4 := rfl
  have h := executed_proposal_is_frozen govD3 1 5 govD4 hx
  exact ⟨hx, h.1, ((h.2.2 [GovOp.opCancel 1 5]).2.2.1 1 (by decide)).1⟩

/-- C5: an `approve` by an active signer `s` on an existing, not executed,
not cancelled, not expired proposal not yet approved by `s` succeeds,
appends `s` to the approvals vector, increments `approval_count` by exactly
one, and the resulting status is `Approved` iff the new count reaches the
threshold (the consistency hypothesis `hcons` — an `Approved` proposal has
reached the threshold — holds on every state the contract itself produces);
a second `approve` by the same signer fails with `AlreadyApproved`. -/
theorem approve_appends_and_flips (σ : GovState) (s pid : Nat) (P : Proposal)
    (hi : σ.inited = true)
    (ha : is_active_signer σ s = true)
    (hg : σ.executed_guard pid = false)
    (hp : σ.proposals pid = some P)
    (hne : P.status ≠ .Executed)
    (hnc : P.status ≠ .Cancelled)
    (hexp : ∀ t, P.expiry = some t → σ.now ≤ t)
    (hnew : has_approved σ pid s = false)
    (hcons : P.status = .Approved → σ.config.threshold ≤ P.approval_count) :
    ∃ σ', approve s pid σ = .ok σ' ∧
      σ'.approvals_map pid = σ.approvals_map pid ++ [s] ∧
      σ'.proposals pid = some { P with
        approval_count := P.approval_count + 1
        status := if σ.config.threshold ≤ P.approval_count + 1
                  then .Approved else P.status } ∧
      ((σ'.proposals pid).map Proposal.status = some .Approved ↔
        σ.config.threshold ≤ P.approval_count + 1) ∧
      approve s pid σ' = .error .AlreadyApproved := by
  have hexpb : is_expired σ.now P.expiry = false := by
    cases hE : P.expiry with
    | none => rfl
    | some t =>
      simp only [is_expired, decide_eq_false_iff_not]
      exact Nat.not_lt.mpr (hexp t hE)
  have happ : approve s pid σ = .ok { σ with
      approvals_map := setFun σ.approvals_map pid (σ.approvals_map pid ++ [s])
      proposals := (setFun σ.proposals pid (some { P with
        approval_count := P.approval_count + 1
        status := if σ.config.threshold ≤ P.approval_count + 1
                  then .Approved else P.status })) } := by
    unfold approve
    simp only [hi, ha, hg, hp, hexpb, hnew, Bool.true_eq_false,
      not_true_eq_false, if_false, Bool.false_eq_true, if_neg hne,
      if_neg hnc]
  refine ⟨_, happ, by simp [setFun], by simp [setFun], ?_, ?_⟩
  · simp only [setFun, if_pos rfl, Option.map_some]
    by_cases hth : σ.config.threshold ≤ P.approval_count + 1
    · simp [hth]
    · simp only [if_neg hth]
      constructor
      · intro hst
        have : P.status = .Approved := by
          injection hst
        exact absurd (Nat.le_succ_of_le (hcons this)) hth
      · intro hc; exact absurd hc hth
  · unfold approve
    have hst' : (if σ.config.threshold ≤ P.approval_count + 1
        then ProposalStatus.Approved else P.status) ≠ .Executed := by
      by_cases hth : σ.config.threshold ≤ P.approval_count + 1
      · simp [hth]
      · simpa [hth] using hne
    have hst'' : (if σ.config.threshold ≤ P.approval_count + 1
        then ProposalStatus.Approved else P.status) ≠ .Cancelled := by
      by_cases hth : σ.config.threshold ≤ P.approval_count + 1
      · simp [hth]
      · simpa [hth] using hnc
    simp [hi, hg, hexpb, hst', hst'', has_approved, setFun]
    exact ha

/-- Witness for C5: on the concrete demo state (1 signer, threshold 1,
pending proposal 5), the first `approve` succeeds, appends signer 1, flips
the status to `Approved`, and a second `approve` fails with
`AlreadyApproved`. -/
theorem approve_appends_and_flips_witness :
    ∃ σ', approve 1 5 govD2 = .ok σ' ∧
      σ'.approvals_map 5 = [1] ∧
      (σ'.proposals 5).map Proposal.status = some .Approved ∧
      approve 1 5 σ' = .error .AlreadyApproved := by
  obtain ⟨σ', h1, h2, h3, h4, h5⟩ :=
    approve_appends_and_flips govD2 1 5
      ⟨5, 2, "do_upgrade", [], 1, .Pending, 0, 0, none, none, some 604800⟩
      (by decide) (by decide) (by decide) (by decide) (by decide) (by decide)
      (fun t ht => by injection ht with h6; rw [← h6]; decide)
      (by decide) (by decide)
  refine ⟨σ', h1, ?_, ?_, h5⟩
  · rw [h2]; decide
  · rw [h3]; decide

/-- C6 counterexample: proposal 6 stores args `[1, 2, 3]`, but the external
call issued by a successful `execute` carries an *empty* argument vector
(lib.rs lines 527-536 pass `empty_args`), so the call is not made "with the
args stored in the proposal". -/
theorem execute_call_ignores_stored_args :
    (govE3.proposals 6).map Proposal.args = some [1, 2, 3] ∧
    (∃ σ', execute 1 6 govE3 = .ok σ' ∧
       σ'.ext_calls = [⟨2, "set_params", [], true⟩]) ∧
    govE4.ext_calls = [⟨2, "set_params", [], true⟩] ∧
    ([] : List Nat) ≠ [1, 2, 3] := by
  exact ⟨by decide, ⟨govE4, rfl, by decide⟩, by decide, by decide⟩

/-- C6 as amended: on a successful `execute` of proposal `p`, the guard is
set, and exactly one external call is appended — to `p`'s stored target
contract and function, issued strictly after the guard write
(`guard_was_set = true` is the guard's value snapshotted at the moment of
the call) — but with an empty argument vector instead of the stored args. -/
theorem execute_single_call_empty_args (σ : GovState) (e pid : Nat)
    (σ₁ : GovState) (P : Proposal)
    (hp : σ.proposals pid = some P)
    (h : execute e pid σ = .ok σ₁) :
    σ₁.executed_guard pid = true ∧
    σ₁.ext_calls = σ.ext_calls ++ [⟨P.target_contract, P.function, [], true⟩] := by
  obtain ⟨hi, hoff, h1, h2, _, P0, hP0, h3, hcall⟩ := execute_ok_shape e pid σ σ₁ h
  have hPP : P0 = P := by
    rw [hp] at hP0; injection hP0 with h4; exact h4.symm
  subst hPP
  exact ⟨by rw [h2]; simp [setFun], hcall⟩

/-- Witness for the amended C6: executing the concrete approved proposal 6
succeeds, sets the guard, and appends exactly the one empty-args call. -/
theorem execute_single_call_empty_args_witness :
    ∃ σ', execute 1 6 govE3 = .ok σ' ∧
      σ'.executed_guard 6 = true ∧
      σ'.ext_calls = govE3.ext_calls ++ [⟨2, "set_params", [], true⟩] := by
  have h := execute_single_call_empty_args govE3 1 6 govE4
    ⟨6, 2, "set_params", [1, 2, 3], 1, .Approved, 1, 0, none, none, some 604800⟩
    (by decide) rfl
  exact ⟨govE4, rfl, h.1, h.2⟩

/-- C7 as amended: on a `Cancelled` proposal, `approve` and `execute` fail
with `ProposalCancelled` and change nothing; but `revoke_approval` performs
no `Cancelled` check: a prior approver's revoke succeeds and, whenever the
decremented count is below the threshold, resets the status to `Pending` —
an edge out of `Cancelled`. -/
theorem cancelled_proposal_ops (σ : GovState) (pid : Nat) (P : Proposal)
    (hi : σ.inited = true) (hg : σ.executed_guard pid = false)
    (hp : σ.proposals pid = some P) (hst : P.status = .Cancelled) :
    (∀ s, is_active_signer σ s = true →
       approve s pid σ = .error .ProposalCancelled ∧
       execute s pid σ = .error .ProposalCancelled) ∧
    (∀ s, is_active_signer σ s = true → has_approved σ pid s = true →
       ∃ σ', revoke_approval s pid σ = .ok σ' ∧
         σ'.proposals pid = some { P with
           approval_count := P.approval_count - 1
           status := if P.approval_count - 1 < σ.config.threshold
                     then .Pending else P.status } ∧
         (P.approval_count - 1 < σ.config.threshold →
            (σ'.proposals pid).map Proposal.status = some .Pending)) := by
  have hne : P.status ≠ .Executed := by rw [hst]; decide
  constructor
  · intro s ha
    constructor
    · unfold approve
      simp [hi, ha, hg, hp, hne, hst]
    · unfold execute
      simp [hi, ha, hg, hp, hne, hst]
  · intro s ha happr
    have hr : revoke_approval s pid σ = .ok { σ with
        approvals_map := setFun σ.approvals_map pid
          ((σ.approvals_map pid).filter (fun a => a ≠ s))
        proposals := (setFun σ.proposals pid (some { P with
          approval_count := P.approval_count - 1
          status := if P.approval_count - 1 < σ.config.threshold
                    then .Pending else P.status })) } := by
      unfold revoke_approval
      simp [hi, ha, hg, hp, hne, happr]
    exact ⟨_, hr, by simp [setFun], fun hlt => by simp [setFun, hlt]⟩

/-- Witness for the amended C7: on the concrete cancelled proposal 7,
`approve` and `execute` fail with `ProposalCancelled`, while the earlier
approver's `revoke_approval` succeeds and leaves the proposal `Pending`. -/
theorem cancelled_proposal_ops_witness :
    approve 1 7 govG4 = .error .ProposalCancelled ∧
    execute 1 7 govG4 = .error .ProposalCancelled ∧
    (∃ σ', revoke_approval 1 7 govG4 = .ok σ' ∧
       (σ'.proposals 7).map Proposal.status = some .Pending) := by
  obtain ⟨h1, h2⟩ := cancelled_proposal_ops govG4 7
    ⟨7, 2, "noop", [], 1, .Cancelled, 1, 0, none, none, some 604800⟩
    (by decide) (by decide) (by decide) (by decide)
  obtain ⟨σ', hr, hps, himp⟩ := h2 1 (by decide) (by decide)
  exact ⟨(h1 1 (by decide)).1, (h1 1 (by decide)).2, ⟨σ', hr, himp (by decide)⟩⟩

/-- C3 as amended: `reconcile_match` only records: it appends one
reconciliation-log row whose `is_divergent` flag is set iff the fetched
on-chain state string differs from the `Debug` rendering of the database
state, and returns `Ok(!is_divergent)`; it performs no resolution — the
match rows, transition log, chain-sync log and chain calls are unchanged
(in particular the database state is neither advanced nor regressed). -/
theorem reconcile_match_records_only (cs : String) (σ : BackendWorld)
    (id : Nat) (m : MatchAuthorityEntity)
    (hm : get_match_entity σ id = some m) :
    (reconcile_match_with cs id σ).2.match_authority = σ.match_authority ∧
    (reconcile_match_with cs id σ).2.transitions = σ.transitions ∧
    (reconcile_match_with cs id σ).2.chain_sync = σ.chain_sync ∧
    (reconcile_match_with cs id σ).2.chain_calls = σ.chain_calls ∧
    (reconcile_match_with cs id σ).2.recon_log =
      σ.recon_log ++ [⟨id, m.state, cs, decide (cs ≠ debugStr m.state)⟩] ∧
    (reconcile_match_with cs id σ).1 = .ok (decide (cs = debugStr m.state)) := by
  unfold reconcile_match_with
  rw [hm]
  refine ⟨rfl, rfl, rfl, rfl, rfl, ?_⟩
  by_cases h : cs = debugStr m.state <;> simp [h]

/-- Witness for the amended C3: on the concrete `Created` match, with the
placeholder's `"CREATED"` as the fetched string, only a log row is appended
— and it is flagged divergent, because `"CREATED"` does not equal the
`Debug` rendering `"Created"`. -/
theorem reconcile_match_records_only_witness :
    (reconcile_match_with "CREATED" 0 worldCreated).1 = .ok false ∧
    (reconcile_match_with "CREATED" 0 worldCreated).2.match_authority =
      [mCreated] ∧
    (reconcile_match_with "CREATED" 0 worldCreated).2.transitions = [] ∧
    (reconcile_match_with "CREATED" 0 worldCreated).2.recon_log =
      [⟨0, .Created, "CREATED", true⟩] := by
  have h := reconcile_match_records_only "CREATED" worldCreated 0 mCreated
    (by decide)
  exact ⟨h.2.2.2.2.2, h.1, h.2.1, h.2.2.2.2.1⟩

/-- C4 as amended: `create_match` checks only the 56-character lengths and
the idempotency key — there is no distinct-player and no ban check.  With
valid lengths, no idempotency hit and a successful chain call, the request
succeeds (even when `player_a = player_b`): the chain call is issued and
the match row, chain-sync row and `Created → Created` transition row are
inserted. -/
theorem create_match_no_player_precondition (chain : ChainOracle)
    (dto : CreateMatchDTO) (σ : BackendWorld) (hash : String)
    (hla : dto.player_a.length = 56) (hlb : dto.player_b.length = 56)
    (hid : dto.idempotency_key.bind (get_match_by_idempotency_key σ) = none)
    (hch : chain (create_match_call σ dto) = .ok hash)
    (hfresh : get_match_entity σ σ.next_id = none)
    (hfresh2 : get_match_transitions σ σ.next_id = []) :
    ∃ m : MatchAuthorityEntity,
      m.player_a = dto.player_a ∧ m.player_b = dto.player_b ∧
      m.state = .Created ∧ m.id = σ.next_id ∧
      create_match chain dto σ =
        (.ok (m, [⟨σ.next_id, .Created, .Created, dto.player_a, some hash⟩]),
         { σ with
           chain_calls := σ.chain_calls ++ [create_match_call σ dto]
           match_authority := σ.match_authority ++ [m]
           chain_sync := σ.chain_sync ++
             [⟨σ.next_id, "create_match", hash, "pending", none⟩]
           transitions := σ.transitions ++
             [⟨σ.next_id, .Created, .Created, dto.player_a, some hash⟩]
           next_id := σ.next_id + 1 }) := by
  refine ⟨{ id := σ.next_id, on_chain_match_id := hash
            player_a := dto.player_a, player_b := dto.player_b
            winner := none, state := .Created, created_at := σ.now
            started_at := none, ended_at := none
            last_chain_tx := some hash
            idempotency_key := dto.idempotency_key },
          rfl, rfl, rfl, rfl, ?_⟩
  unfold create_match invoke_chain record_chain_sync record_transition
  unfold get_match_entity at hfresh
  unfold get_match_transitions at hfresh2
  simp only [hla, hlb, hid, hch, and_self, not_true_eq_false, if_false,
    get_match_with_transitions, get_match_entity, get_match_transitions,
    List.find?_append, List.filter_append, hfresh, hfresh2, List.find?,
    List.filter]
  simp [hfresh, hfresh2]

/-- Witness for the amended C4: the equal-player request on the empty world
succeeds and returns the inserted match. -/
theorem create_match_no_player_precondition_witness :
    ∃ m : MatchAuthorityEntity, m.player_a = dtoSame.player_a ∧
      m.player_b = dtoSame.player_b ∧ m.state = .Created ∧ m.id = 0 ∧
      (create_match chainOk dtoSame emptyWorld).1 =
        .ok (m, [⟨0, .Created, .Created, dtoSame.player_a, some "h1"⟩]) := by
  obtain ⟨m, h1, h2, h3, h4, h5⟩ :=
    create_match_no_player_precondition chainOk dtoSame emptyWorld "h1"
      (by decide) (by decide) (by decide) rfl (by decide) (by decide)
  exact ⟨m, h1, h2, h3, h4, by rw [h5]; rfl⟩

/-- C9: for each mutating match operation, when the local validation fails
— the FSM rejects the transition, or the winner (resp. dispute actor) is
not one of the match's two players — the operation returns an error and the
world is returned *unchanged*: no chain invocation was issued, no
`MatchTransition` or `MatchChainSync` row appended, and the stored match
entity untouched. -/
theorem match_ops_validation_failures_pure (chain : ChainOracle)
    (σ : BackendWorld) (id : Nat) (m : MatchAuthorityEntity)
    (hm : get_match_entity σ id = some m) :
    (∀ dto : CompleteMatchDTO,
       (¬ m.state.can_transition_to .Completed = true ∨
        (dto.winner ≠ m.player_a ∧ dto.winner ≠ m.player_b)) →
       ∃ e, complete_match chain id dto σ = (.error e, σ)) ∧
    (¬ m.state.can_transition_to .Started = true →
       ∃ e, start_match chain id σ = (.error e, σ)) ∧
    (∀ actor : String,
       (¬ m.state.can_transition_to .Disputed = true ∨
        (actor ≠ m.player_a ∧ actor ≠ m.player_b)) →
       ∃ e, raise_dispute chain id actor σ = (.error e, σ)) ∧
    (¬ m.state.can_transition_to .Finalized = true →
       ∃ e, finalize_match chain id σ = (.error e, σ)) := by
  refine ⟨?_, ?_, ?_, ?_⟩
  · intro dto hbad
    by_cases hlen : dto.winner.length = 56
    · by_cases hcan : m.state.can_transition_to .Completed = true
      · have hw : dto.winner ≠ m.player_a ∧ dto.winner ≠ m.player_b := by
          rcases hbad with hc | hw
          · exact absurd hcan hc
          · exact hw
        refine ⟨.badRequest "Winner must be one of the match players", ?_⟩
        unfold complete_match validate_transition
        simp [hlen, hm, hcan, hw.1, hw.2]
      · refine ⟨.badRequest "Invalid state transition", ?_⟩
        unfold complete_match validate_transition
        simp [hlen, hm, hcan]
    · exact ⟨.badRequest "Validation error",
        by unfold complete_match; simp [hlen]⟩
  · intro hcan
    refine ⟨.badRequest "Invalid state transition", ?_⟩
    unfold start_match validate_transition
    simp [hm, hcan]
  · intro actor hbad
    by_cases hcan : m.state.can_transition_to .Disputed = true
    · have hw : actor ≠ m.player_a ∧ actor ≠ m.player_b := by
        rcases hbad with hc | hw
        · exact absurd hcan hc
        · exact hw
      refine ⟨.forbidden "Only match players can raise disputes", ?_⟩
      unfold raise_dispute validate_transition
      simp [hm, hcan, hw.1, hw.2]
    · refine ⟨.badRequest "Invalid state transition", ?_⟩
      unfold raise_dispute validate_transition
      simp [hm, hcan]
  · intro hcan
    refine ⟨.badRequest "Invalid state transition", ?_⟩
    unfold finalize_match validate_transition
    simp [hm, hcan]

/-- Witness for C9: on the concrete `Created` match, `complete_match`
(the S3 scenario: complete directly after create) fails and the world —
including the chain-call log and all rows — is exactly unchanged. -/
theorem match_ops_validation_failures_pure_witness :
    ∃ e, complete_match chainOk 0 ⟨addrB⟩ worldCreated =
      (.error e, worldCreated) := by
  exact (match_ops_validation_failures_pure chainOk worldCreated 0 mCreated
    (by decide)).1 ⟨addrB⟩ (Or.inl (by decide))

/-- `require_authority` called with the stored admin short-circuits in the
admin branch: the Identity contract is never consulted. -/
theorem require_authority_self (auth : Nat → Bool) (role : Nat → Nat)
    (a : Nat) (σ : SlashState) (hA : σ.admin = some a)
    (hAu : auth a = true) :
    require_authority auth role a σ = .ok σ := by
  unfold require_authority
  rw [hA]
  simp [hAu]

/-- `require_authority` with the stored admin fails when the admin has not
authorized — still without consulting the Identity contract. -/
theorem require_authority_self_declined (auth : Nat → Bool)
    (role : Nat → Nat) (a : Nat) (σ : SlashState) (hA : σ.admin = some a)
    (hAu : auth a = false) :
    require_authority auth role a σ = .error "auth declined" := by
  unfold require_authority
  rw [hA]
  simp [hAu]

/-- The penalty dispatch (`execute_penalty`'s four arms) never touches the
`identity_calls` log (only escrow calls and ban records). -/
theorem dispatch_preserves_identity (pt subj cid : Nat) (am : Option Int)
    (asst : Option Nat) (du : Option Nat) (σ σ₂ : SlashState)
    (h : (if pt = 0 then execute_stake_slash subj am asst σ
          else if pt = 1 then execute_reward_confiscation subj am asst σ
          else if pt = 2 then execute_temporary_suspension subj du cid σ
          else execute_permanent_ban subj cid σ) = .ok σ₂) :
    σ₂.identity_calls = σ.identity_calls := by
  unfold execute_stake_slash execute_reward_confiscation
    execute_temporary_suspension execute_permanent_ban at h
  repeat' split at h
  all_goals try exact Except.noConfusion h
  all_goals (injection h with h'; subst h'; rfl)

/-- C10: the slashing contract's caller resolution returns the stored admin
unconditionally, so in every successful `open_case`, `approve_case` and
`execute_penalty` the acting address — the one whose authorization is
consumed and the one recorded as `initiator` / `approver` — is the admin,
and the Identity-contract System-role path is never taken (`get_role` is
never invoked). -/
theorem slashing_actor_is_stored_admin (auth : Nat → Bool)
    (role : Nat → Nat) (σ : SlashState) :
    get_caller σ = σ.admin ∧
    (∀ cid subj rc ev σ',
       open_case auth role cid subj rc ev σ = .ok σ' →
       ∃ a, σ.admin = some a ∧ auth a = true ∧
         (σ'.cases cid).map SlashCase.initiator = some a ∧
         σ'.events = σ.events ++ [.caseOpened cid subj a] ∧
         σ'.identity_calls = σ.identity_calls) ∧
    (∀ cid σ', approve_case auth role cid σ = .ok σ' →
       ∃ a, σ.admin = some a ∧ auth a = true ∧
         σ'.events = σ.events ++ [.caseApproved cid a] ∧
         σ'.identity_calls = σ.identity_calls) ∧
    (∀ cid pt am asst du σ',
       execute_penalty auth role cid pt am asst du σ = .ok σ' →
       ∃ a, σ.admin = some a ∧ auth a = true ∧
         σ'.identity_calls = σ.identity_calls) := by
  refine ⟨rfl, ?_, ?_, ?_⟩
  · intro cid subj rc ev σ' h
    unfold open_case get_caller at h
    cases hA : σ.admin with
    | none => rw [hA] at h; exact Except.noConfusion h
    | some a =>
      rw [hA] at h
      simp only [] at h
      by_cases hAu : auth a = true
      · rw [require_authority_self auth role a σ hA hAu] at h
        simp only [] at h
        repeat' split at h
        all_goals try exact Except.noConfusion h
        injection h with h'
        subst h'
        exact ⟨a, rfl, hAu, by simp [setFun], rfl, rfl⟩
      · rw [require_authority_self_declined auth role a σ hA
          (Bool.not_eq_true _ ▸ hAu)] at h
        exact Except.noConfusion h
  · intro cid σ' h
    unfold approve_case get_caller at h
    cases hA : σ.admin with
    | none => rw [hA] at h; exact Except.noConfusion h
    | some a =>
      rw [hA] at h
      simp only [] at h
      by_cases hAu : auth a = true
      · rw [require_authority_self auth role a σ hA hAu] at h
        simp only [] at h
        repeat' split at h
        all_goals try exact Except.noConfusion h
        injection h with h'
        subst h'
        exact ⟨a, rfl, hAu, rfl, rfl⟩
      · rw [require_authority_self_declined auth role a σ hA
          (Bool.not_eq_true _ ▸ hAu)] at h
        exact Except.noConfusion h
  · intro cid pt am asst du σ' h
    unfold execute_penalty get_caller at h
    cases hA : σ.admin with
    | none => rw [hA] at h; exact Except.noConfusion h
    | some a =>
      rw [hA] at h
      simp only [] at h
      by_cases hAu : auth a = true
      · rw [require_authority_self auth role a σ hA hAu] at h
        simp only [] at h
        repeat' split at h
        all_goals try exact Except.noConfusion h
        rename_i σ₂ heq
        injection h with h'
        subst h'
        refine ⟨a, rfl, hAu, ?_⟩
        exact dispatch_preserves_identity pt _ cid am asst du σ σ₂ heq
      · rw [require_authority_self_declined auth role a σ hA
          (Bool.not_eq_true _ ▸ hAu)] at h
        exact Except.noConfusion h

/-- Witness for C10: on the initialized concrete contract (admin 100), a
successful `open_case` records initiator 100 — the stored admin — and no
Identity-contract query is made. -/
theorem slashing_actor_is_stored_admin_witness :
    ∃ σ', open_case authAll roleNone 9 55 100 7 slashInit = .ok σ' ∧
      (σ'.cases 9).map SlashCase.initiator = some 100 ∧
      σ'.identity_calls = slashInit.identity_calls := by
  obtain ⟨a, hA, hAu, hin, hev, hid⟩ :=
    (slashing_actor_is_stored_admin authAll roleNone slashInit).2.1 9 55 100 7
      (applySlashOp authAll roleNone slashInit (.opOpen 9 55 100 7)) rfl
  have ha : a = 100 := by
    have h2 : (some 100 : Option Nat) = some a := hA
    injection h2 with h3
    exact h3.symm
  subst ha
  exact ⟨_, rfl, hin, hid⟩

end ArenaX
